import Mathlib

/-!
Shallow embedding of `pysra/site.py` (soil profile model for equivalent-linear
site-response analysis), together with theorems settling the specification
claims about it.

Machine floats are modelled as exact rationals (`ℚ`) for the stateful
layer/profile code, and as reals (`ℝ`) for the empirical soil-curve formulas
that use logarithms and real exponents.
-/

namespace Pysra

/-- Modelled from the spec: the gravitational constant is supplied by an
external physics module (`pysra.motion.GRAVITY = scipy.constants.g`), which is
not part of this repository's analysed source.  All theorems below treat it
symbolically; only its positivity is ever used. -/
def GRAVITY : ℚ := 980665 / 100000

theorem GRAVITY_pos : 0 < GRAVITY := by norm_num [GRAVITY]

/-! ## IterativeValue (site.py lines 489-526)

The Python class wraps a float; we embed the scalar case, where
`np.max` of a scalar is the scalar itself, and Python float division by zero
raises `ZeroDivisionError`, which the source catches and converts to
`np.inf`. -/

/-- Result of `IterativeValue.relative_error`: either a finite percentage or
the explicit infinite value produced for a zero current value. -/
inductive RelError where
  | fin (q : ℚ)
  | inf
  deriving DecidableEq

/-- Python `max` on two possibly-infinite error values (used by
`Layer.max_error`). -/
def RelError.maxE : RelError → RelError → RelError
  | .inf, _ => .inf
  | _, .inf => .inf
  | .fin a, .fin b => .fin (max a b)

/-- `IterativeValue`: current value plus the value from the previous
iteration (`None` until the value is first reassigned). -/
structure IterativeValue where
  value : ℚ
  previous : Option ℚ
  deriving DecidableEq

/-- The `value` property setter: shifts the old value into `previous`. -/
def IterativeValue.setValue (iv : IterativeValue) (v : ℚ) : IterativeValue :=
  ⟨v, some iv.value⟩

/-- `IterativeValue.relative_error`: `100 * max((previous - value) / value)`
when `previous` is set (`ZeroDivisionError` on a zero current value is caught
and turned into `np.inf`), else `0`. -/
def IterativeValue.relative_error (iv : IterativeValue) : RelError :=
  match iv.previous with
  | none => .fin 0
  | some p => if iv.value = 0 then .inf else .fin (100 * ((p - iv.value) / iv.value))

/-- `IterativeValue.reset`: clears `previous`, keeping the current value. -/
def IterativeValue.reset (iv : IterativeValue) : IterativeValue :=
  ⟨iv.value, none⟩

/-! ## SoilType (site.py lines 149-199)

A `NonlinearProperty` owned by a soil type is embedded at this level as its
stored `values` list together with its interpolated evaluation function
(the log-space interpolation itself is embedded separately below for the
interpolation claims; the layer-level claims do not depend on its content). -/

/-- A nonlinear property as seen by `SoilType`/`Layer`: stored curve values
plus the interpolated evaluation map strain ↦ property value. -/
structure NLCurve where
  values : List ℚ
  eval : ℚ → ℚ

/-- The `damping` attribute of a `SoilType`: either a `NonlinearProperty`
curve or a constant scalar damping (linear behaviour). -/
inductive DampingSpec where
  | curve (c : NLCurve)
  | const (v : ℚ)

/-- `SoilType`: unit weight, optional modulus-reduction curve (absent ⇒
linear, no reduction), and damping (curve or scalar). -/
structure SoilType where
  unit_wt : ℚ
  mod_reduc : Option NLCurve
  damping : DampingSpec

/-- `SoilType.is_nonlinear`: true iff either property is a
`NonlinearProperty`. -/
def SoilType.is_nonlinear (st : SoilType) : Bool :=
  st.mod_reduc.isSome ||
    (match st.damping with
     | .curve _ => true
     | .const _ => false)

/-- `SoilType.damping_min`: `damping.values[0]` for a curve (the
`AttributeError` fallback returns the scalar itself for constant damping). -/
def SoilType.damping_min (st : SoilType) : ℚ :=
  match st.damping with
  | .curve c => c.values.headD 0
  | .const v => v

/-- `SoilType.density = unit_wt / GRAVITY`. -/
def SoilType.density (st : SoilType) : ℚ :=
  st.unit_wt / GRAVITY

/-- Evaluation of `soil_type.mod_reduc(strain)` as performed inside the
`Layer.strain` setter: calling `None` raises `TypeError`, which the source
catches and replaces with `1`. -/
def SoilType.modReducAt (st : SoilType) (s : ℚ) : ℚ :=
  match st.mod_reduc with
  | some c => c.eval s
  | none => 1

/-- Evaluation of `soil_type.damping(strain)` as performed inside the
`Layer.strain` setter: calling a scalar raises `TypeError`, which the source
catches and replaces with the scalar `soil_type.damping` itself. -/
def SoilType.dampingAt (st : SoilType) (s : ℚ) : ℚ :=
  match st.damping with
  | .curve c => c.eval s
  | .const v => v

/-! ## Layer (site.py lines 529-700) -/

/-- The `Layer._strain` slot: an `IterativeValue` (holding `None` until the
first nonlinear strain assignment) or a raw number for linear soils. -/
inductive StrainState where
  | iter (value : Option ℚ) (previous : Option (Option ℚ))
  | raw (v : ℚ)

/-- `Layer` state: soil type, geometry, the two convergence-tracked
properties and the top-of-layer depth and total vertical stress assigned by
`Profile.update_layers`. The back-reference `_profile` is not stored;
profile-dependent methods receive the needed profile data as arguments. -/
structure Layer where
  soil_type : SoilType
  thickness : ℚ
  initial_shear_vel : ℚ
  shear_mod : IterativeValue
  damping : IterativeValue
  strain : StrainState
  depth : ℚ
  vert_stress : ℚ

/-- `Layer.initial_shear_mod = density * initial_shear_vel ** 2`. -/
def Layer.initial_shear_mod (l : Layer) : ℚ :=
  l.soil_type.density * l.initial_shear_vel ^ 2

/-- `Layer.depth_base = depth + thickness`. -/
def Layer.depth_base (l : Layer) : ℚ :=
  l.depth + l.thickness

/-- `Layer.reset`: fresh `IterativeValue`s for shear modulus (at
`initial_shear_mod`) and damping (at `soil_type.damping_min`), and an
`IterativeValue(None)` strain. -/
def Layer.reset (l : Layer) : Layer :=
  { l with
    shear_mod := ⟨l.initial_shear_mod, none⟩
    damping := ⟨l.soil_type.damping_min, none⟩
    strain := .iter none none }

/-- `Layer.__init__(soil_type, thickness, shear_vel)`: stores the fields,
runs `reset()`, and zeroes `_depth` and `_vert_stress`. -/
def Layer.init (st : SoilType) (thickness shear_vel : ℚ) : Layer :=
  Layer.reset
    { soil_type := st
      thickness := thickness
      initial_shear_vel := shear_vel
      shear_mod := ⟨0, none⟩
      damping := ⟨0, none⟩
      strain := .iter none none
      depth := 0
      vert_stress := 0 }

/-- `Layer.max_error = max(shear_mod.relative_error, damping.relative_error)`. -/
def Layer.max_error (l : Layer) : RelError :=
  RelError.maxE l.shear_mod.relative_error l.damping.relative_error

/-- The `Layer.strain` setter: pushes the strain (iteratively for nonlinear
soils, as a raw value otherwise), then recomputes
`shear_mod.value = initial_shear_mod * mod_reduc(strain)` and
`damping.value = damping(strain)` with the `TypeError` fallbacks of the
source (`mod_reduc = 1`, constant damping).  A nonlinear layer always holds
an iterative strain, so the `raw` case of the first match is unreachable
there. -/
def Layer.setStrain (l : Layer) (s : ℚ) : Layer :=
  let strain' :=
    if l.soil_type.is_nonlinear then
      match l.strain with
      | .iter v _ => StrainState.iter (some s) (some v)
      | .raw r => StrainState.raw r
    else
      StrainState.raw s
  { l with
    strain := strain'
    shear_mod := l.shear_mod.setValue (l.initial_shear_mod * l.soil_type.modReducAt s)
    damping := l.damping.setValue (l.soil_type.dampingAt s) }

/-- Total vertical stress at an offset within the layer:
`_vert_stress + depth_within * unit_wt` (site.py line 690). -/
def Layer.stressAt (l : Layer) (depth_within : ℚ) : ℚ :=
  l.vert_stress + depth_within * l.soil_type.unit_wt

/-- `Profile.pore_pressure` formula, factored over the water-table depth:
`GRAVITY * max(depth - wt_depth, 0)`. -/
def porePressureAux (wt_depth depth : ℚ) : ℚ :=
  GRAVITY * max (depth - wt_depth) 0

/-- `Layer.vert_stress(depth_within, effective)`: asserts
`depth_within <= thickness` (an `AssertionError` otherwise), then returns the
top-of-layer stress plus `depth_within * unit_wt`, minus the profile's pore
pressure at `depth + depth_within` when `effective`. -/
def Layer.vert_stress_at (l : Layer) (wt_depth depth_within : ℚ)
    (effective : Bool) : Except String ℚ :=
  if depth_within ≤ l.thickness then
    .ok (if effective then
           l.stressAt depth_within - porePressureAux wt_depth (l.depth + depth_within)
         else
           l.stressAt depth_within)
  else
    .error "AssertionError"

/-! ## Profile (site.py lines 739-898) -/

/-- The body of the loop in `Profile.update_layers`: assign `depth` and
`vert_stress` to each remaining layer, chaining the base-of-layer values of
each layer into the top of the next.  (The source skips the final advance on
the last layer, which does not change the assigned states.) -/
def updateFrom (depth vstress : ℚ) : List Layer → List Layer
  | [] => []
  | l :: rest =>
    { l with depth := depth, vert_stress := vstress } ::
      updateFrom (depth + l.thickness) (vstress + l.thickness * l.soil_type.unit_wt) rest

/-- `Profile.update_layers(start_layer)`: layers before `start_layer` are
untouched; chaining starts from zero for `start_layer < 1`, otherwise from
the base depth and base total stress of layer `start_layer - 1`
(`ref_layer.vert_stress(ref_layer.thickness, effective=False)`, whose
assertion holds trivially).  An out-of-range `start_layer ≥ 1` would raise
`IndexError` in the source; that case is never exercised here. -/
def update_layers (layers : List Layer) (start : ℕ) : List Layer :=
  if start < 1 then
    updateFrom 0 0 layers
  else
    match layers.get? (start - 1) with
    | some ref =>
        layers.take start ++
          updateFrom ref.depth_base (ref.stressAt ref.thickness) (layers.drop start)
    | none => layers

/-- `Profile`: the ordered layers (last one is the halfspace) and the
water-table depth. -/
structure Profile where
  layers : List Layer
  wt_depth : ℚ

/-- `Profile.__init__(layers, wt_depth)`: stores both and runs
`update_layers()` over the whole column. -/
def Profile.init (layers : List Layer) (wt_depth : ℚ) : Profile :=
  ⟨update_layers layers 0, wt_depth⟩

/-- `Profile.pore_pressure(depth) = GRAVITY * max(depth - wt_depth, 0)`. -/
def Profile.pore_pressure (p : Profile) (depth : ℚ) : ℚ :=
  porePressureAux p.wt_depth depth

/-- Modelled from the spec: the wave-field enumeration lives in the external
`pysra.motion` module (a closed set of named modes); `Location` merely
stores a validated member, so the members' identities are irrelevant here. -/
inductive WaveField where
  | outcrop
  | within
  | incoming_only

/-- `Location`: layer index, the layer itself, wave field and the depth
within the layer. -/
structure Location where
  index : ℕ
  layer : Layer
  wave_field : WaveField
  depth_within : ℚ

/-- The containment test of the depth scan in `Profile.location`:
`layer.depth <= depth < layer.depth_base`. -/
def containsDepth (l : Layer) (d : ℚ) : Prop :=
  l.depth ≤ d ∧ d < l.depth_base

instance (l : Layer) (d : ℚ) : Decidable (containsDepth l d) :=
  inferInstanceAs (Decidable (_ ∧ _))

/-- The `for ... else` scan of `Profile.location` over the non-halfspace
layers: first layer containing the depth, with its index and
`depth_within = depth - layer.depth`. -/
def locateAux (d : ℚ) : List Layer → Option (ℕ × Layer × ℚ)
  | [] => none
  | l :: rest =>
    if containsDepth l d then
      some (0, l, d - l.depth)
    else
      (locateAux d rest).map (fun r => (r.1 + 1, r.2))

/-- Placeholder layer used only as the default of total list lookups on
indices that are proved in range. -/
def dummyLayer : Layer :=
  { soil_type := ⟨0, none, .const 0⟩
    thickness := 0
    initial_shear_vel := 0
    shear_mod := ⟨0, none⟩
    damping := ⟨0, none⟩
    strain := .raw 0
    depth := 0
    vert_stress := 0 }

/-- `Profile.location(wave_field, depth=d)`: scans `self[:-1]` in order for
the first layer whose `[depth, depth_base)` range contains `d`; if none
contains it, falls back to the final halfspace layer at zero offset. -/
def Profile.location (p : Profile) (wf : WaveField) (d : ℚ) : Location :=
  match locateAux d p.layers.dropLast with
  | some (i, l, dw) => ⟨i, l, wf, dw⟩
  | none => ⟨p.layers.length - 1, p.layers.getLastD dummyLayer, wf, 0⟩

/-- The `Layer.thickness` setter (site.py lines 673-676): it first assigns
`self._thickness = thickness` and then evaluates
`self._profile.update_layers(self, self._profile.index(self) + 1)`, which
passes two positional arguments to `Profile.update_layers(self,
start_layer=0)` and therefore raises `TypeError` before any recompute runs.
The result is the post-mutation layer list together with the raised error. -/
def setThickness (layers : List Layer) (i : ℕ) (t : ℚ) :
    List Layer × Option String :=
  match layers.get? i with
  | some l =>
      (layers.set i { l with thickness := t },
       some "TypeError: update_layers() takes from 1 to 2 positional arguments but 3 were given")
  | none => (layers, some "IndexError")

/-- The chaining invariant of the spec: each layer's depth equals the
previous layer's base depth, and its top total vertical stress equals the
previous layer's total vertical stress at its base. -/
def chainOk : List Layer → Prop
  | [] => True
  | [_] => True
  | a :: b :: rest =>
    (b.depth = a.depth_base ∧ b.vert_stress = a.stressAt a.thickness) ∧ chainOk (b :: rest)

/-! ## Running maximum (np.maximum.accumulate, site.py line 273) -/

/-- Tail of the running maximum with accumulator `m`. -/
def maxAccumFrom {α : Type} [LinearOrder α] (m : α) : List α → List α
  | [] => []
  | a :: rest => max m a :: maxAccumFrom (max m a) rest

/-- `np.maximum.accumulate`: running maximum of a list. -/
def maximumAccumulate {α : Type} [LinearOrder α] : List α → List α
  | [] => []
  | a :: rest => a :: maxAccumFrom a rest

/-! ## Darendeli and Menq soil types (site.py lines 202-348)

The empirical formulas use natural logarithms and real exponents, so this
part of the embedding works over `ℝ`. -/

noncomputable section

/-- `KPA_TO_ATM = scipy.constants.kilo / scipy.constants.atm`. -/
def KPA_TO_ATM : ℝ := 1000 / 101325

/-- Construction parameters of `DarendeliSoilType`. -/
structure DarendeliParams where
  plas_index : ℝ
  ocr : ℝ
  mean_stress : ℝ
  freq : ℝ
  num_cycles : ℝ

/-- `DarendeliSoilType._calc_strain_ref`. -/
def darendeli_strain_ref (p : DarendeliParams) : ℝ :=
  (0.0352 + 0.0010 * p.plas_index * p.ocr ^ (0.3246 : ℝ)) *
    (p.mean_stress * KPA_TO_ATM) ^ (0.3483 : ℝ)

/-- `DarendeliSoilType._calc_curvature`. -/
def darendeli_curvature : ℝ := 0.9190

/-- `DarendeliSoilType._calc_damping_min`. -/
def darendeli_damping_min (p : DarendeliParams) : ℝ :=
  (0.8005 + 0.0129 * p.plas_index * p.ocr ^ (-0.1069 : ℝ)) *
    (p.mean_stress * KPA_TO_ATM) ^ (-0.2889 : ℝ) *
    (1 + 0.2919 * Real.log p.freq)

/-- The modified hyperbolic modulus reduction
`1 / (1 + (γ / strain_ref) ** curvature)`. -/
def mod_reduc_hyperbolic (strain_ref curvature γ : ℝ) : ℝ :=
  1 / (1 + (γ / strain_ref) ^ curvature)

/-- `damping_masing_a1` of the Darendeli pipeline. -/
def damping_masing_a1 (strain_ref γ : ℝ) : ℝ :=
  (100 / Real.pi) *
    (4 * (γ - strain_ref * Real.log ((γ + strain_ref) / strain_ref)) /
        (γ ^ 2 / (γ + strain_ref)) - 2)

/-- Correction coefficient `c1` between the perfect hyperbolic and the
modified model. -/
def masing_c1 (curvature : ℝ) : ℝ :=
  -1.1143 * curvature ^ 2 + 1.8618 * curvature + 0.2523

/-- Correction coefficient `c2`. -/
def masing_c2 (curvature : ℝ) : ℝ :=
  0.0805 * curvature ^ 2 - 0.0710 * curvature - 0.0095

/-- Correction coefficient `c3`. -/
def masing_c3 (curvature : ℝ) : ℝ :=
  -0.0005 * curvature ^ 2 + 0.0002 * curvature + 0.0003

/-- `damping_masing` of the Darendeli pipeline. -/
def damping_masing (strain_ref curvature γ : ℝ) : ℝ :=
  masing_c1 curvature * damping_masing_a1 strain_ref γ +
    masing_c2 curvature * damping_masing_a1 strain_ref γ ^ 2 +
    masing_c3 curvature * damping_masing_a1 strain_ref γ ^ 3

/-- Masing correction factor `0.6329 - 0.00566 * ln(num_cycles)`. -/
def masing_corr (num_cycles : ℝ) : ℝ :=
  0.6329 - 0.00566 * Real.log num_cycles

/-- The raw (percent) damping of the Darendeli pipeline at one strain,
before monotonization. -/
def masing_damping_raw (strain_ref curvature damping_min num_cycles γ : ℝ) : ℝ :=
  damping_min +
    damping_masing strain_ref curvature γ * masing_corr num_cycles *
      mod_reduc_hyperbolic strain_ref curvature γ ^ (0.1 : ℝ)

/-- The stored damping-curve values of the shared Darendeli/Menq pipeline:
raw damping over the strain grid, monotonized with `np.maximum.accumulate`,
then converted from percent to decimal. -/
def masing_damping_curve (strain_ref curvature damping_min num_cycles : ℝ)
    (strains : List ℝ) : List ℝ :=
  (maximumAccumulate
      (strains.map (masing_damping_raw strain_ref curvature damping_min num_cycles))).map
    (fun d => d / 100)

/-- Stored damping values of `DarendeliSoilType.__init__`. -/
def darendeliDampingCurve (p : DarendeliParams) (strains : List ℝ) : List ℝ :=
  masing_damping_curve (darendeli_strain_ref p) darendeli_curvature
    (darendeli_damping_min p) p.num_cycles strains

/-- Construction parameters of `MenqSoilType`. -/
structure MenqParams where
  uniformity_coeff : ℝ
  diam_mean : ℝ
  mean_stress : ℝ
  num_cycles : ℝ

/-- `MenqSoilType._calc_strain_ref`. -/
def menq_strain_ref (p : MenqParams) : ℝ :=
  0.12 * p.uniformity_coeff ^ (-0.6 : ℝ) *
    p.mean_stress ^ (0.5 * p.uniformity_coeff ^ (-0.15 : ℝ))

/-- `MenqSoilType._calc_curvature`. -/
def menq_curvature (p : MenqParams) : ℝ :=
  0.86 + 0.1 * Real.logb 10 (p.mean_stress * KPA_TO_ATM)

/-- `MenqSoilType._calc_damping_min`. -/
def menq_damping_min (p : MenqParams) : ℝ :=
  0.55 * p.uniformity_coeff ^ (0.1 : ℝ) * p.diam_mean ^ (-0.3 : ℝ) *
    p.mean_stress ^ (-0.08 : ℝ)

/-- Stored damping values of `MenqSoilType.__init__` (the Darendeli pipeline
with the three overridden hook formulas). -/
def menqDampingCurve (p : MenqParams) (strains : List ℝ) : List ℝ :=
  masing_damping_curve (menq_strain_ref p) (menq_curvature p)
    (menq_damping_min p) p.num_cycles strains

/-! ## NonlinearProperty interpolation (site.py lines 34-146)

`NonlinearProperty._update` builds a `scipy.interpolate.interp1d` over
`x = log(strains)`, `y = values` with `bounds_error=False` and
`fill_value=(y[0], y[-1])`, choosing linear interpolation below four points
and a cubic spline otherwise.  The scipy library is outside this
repository; its documented contract is embedded here: inputs below the
first knot evaluate to `y[0]`, inputs above the last knot to `y[-1]`, and
in-range inputs to the kind-dependent interpolant, which enters the
embedding as the function argument `interior` (covering both the linear and
the cubic regime at once). -/

/-- `interp1d(x, y, kind, bounds_error=False, fill_value=(y[0], y[-1]))`
applied to one point. -/
def interp1dEval (xs ys : List ℝ) (interior : ℝ → ℝ) (x : ℝ) : ℝ :=
  if x < xs.headD 0 then ys.headD 0
  else if xs.getLastD 0 < x then ys.getLastD 0
  else interior x

/-- `NonlinearProperty.__call__(strain)`: evaluates the interpolator at
`log(strain)` against knots `log(strains)`. -/
def nlpCall (strains values : List ℝ) (interior : ℝ → ℝ) (s : ℝ) : ℝ :=
  interp1dEval (strains.map Real.log) values interior (Real.log s)

end

/-! ## Theorems for the claims -/

/-- C2: for every `IterativeValue`, `relative_error` equals
`100 * ((previous - value) / value)` (the elementwise maximum of a scalar)
when `previous` is set and the current value is nonzero, equals `0` when
`previous` is unset, and is the explicit infinite value whenever the current
value is zero while `previous` is set. -/
theorem relative_error_spec (iv : IterativeValue) :
    (iv.previous = none → iv.relative_error = .fin 0) ∧
    (∀ p, iv.previous = some p → iv.value ≠ 0 →
      iv.relative_error = .fin (100 * ((p - iv.value) / iv.value))) ∧
    (∀ p, iv.previous = some p → iv.value = 0 → iv.relative_error = .inf) := by
  refine ⟨fun h => ?_, fun p h hv => ?_, fun p h hv => ?_⟩
  · simp [IterativeValue.relative_error, h]
  · simp [IterativeValue.relative_error, h, hv]
  · simp [IterativeValue.relative_error, h, hv]

/-- Witness for C2 at concrete iterative values. -/
theorem relative_error_spec_witness :
    (IterativeValue.mk 5 none).relative_error = .fin 0 ∧
    (IterativeValue.mk 2 (some 3)).relative_error = .fin 50 ∧
    (IterativeValue.mk 0 (some 1)).relative_error = .inf := by
  refine ⟨(relative_error_spec ⟨5, none⟩).1 rfl, ?_, (relative_error_spec ⟨0, some 1⟩).2.2 1 rfl rfl⟩
  have h := (relative_error_spec ⟨2, some 3⟩).2.1 3 rfl (by norm_num)
  rw [h]
  norm_num

/-- C7: `Profile.pore_pressure(d) = GRAVITY * max(d - wt_depth, 0)`; it is
zero for depths at or above the water table and grows linearly with slope
`GRAVITY` below it. -/
theorem pore_pressure_spec (p : Profile) (d d₁ d₂ : ℚ) :
    p.pore_pressure d = GRAVITY * max (d - p.wt_depth) 0 ∧
    (d ≤ p.wt_depth → p.pore_pressure d = 0) ∧
    (p.wt_depth < d → p.pore_pressure d = GRAVITY * (d - p.wt_depth)) ∧
    (p.wt_depth ≤ d₁ → d₁ ≤ d₂ →
      p.pore_pressure d₂ - p.pore_pressure d₁ = GRAVITY * (d₂ - d₁)) := by
  refine ⟨rfl, fun h => ?_, fun h => ?_, fun h1 h12 => ?_⟩
  · have : max (d - p.wt_depth) 0 = 0 := max_eq_right (by linarith)
    simp [Profile.pore_pressure, porePressureAux, this]
  · have : max (d - p.wt_depth) 0 = d - p.wt_depth := max_eq_left (by linarith)
    simp [Profile.pore_pressure, porePressureAux, this]
  · have e1 : max (d₁ - p.wt_depth) 0 = d₁ - p.wt_depth := max_eq_left (by linarith)
    have e2 : max (d₂ - p.wt_depth) 0 = d₂ - p.wt_depth := max_eq_left (by linarith)
    simp only [Profile.pore_pressure, porePressureAux, e1, e2]
    ring

/-- Witness for C7 with a water table at 3 m. -/
theorem pore_pressure_spec_witness :
    (Profile.mk [] 3).pore_pressure 2 = 0 ∧
    (Profile.mk [] 3).pore_pressure 5 = GRAVITY * 2 ∧
    (Profile.mk [] 3).pore_pressure 7 - (Profile.mk [] 3).pore_pressure 4 =
      GRAVITY * 3 := by
  refine ⟨(pore_pressure_spec ⟨[], 3⟩ 2 0 0).2.1 (by norm_num), ?_, ?_⟩
  · have h := (pore_pressure_spec ⟨[], 3⟩ 5 0 0).2.2.1 (by norm_num)
    rw [h]; norm_num
  · have h := (pore_pressure_spec ⟨[], 3⟩ 0 4 7).2.2.2 (by norm_num) (by norm_num)
    rw [h]; norm_num

/-- C8: `Layer.vert_stress(depth_within, effective)` succeeds with the
layer-top stress plus `depth_within * unit_wt` (minus the pore pressure at
`depth + depth_within` when `effective`) whenever
`depth_within ≤ thickness`, and fails with an error whenever
`depth_within > thickness`. -/
theorem vert_stress_at_spec (l : Layer) (wt dw : ℚ) (eff : Bool) :
    (dw ≤ l.thickness →
      l.vert_stress_at wt dw eff =
        .ok (l.vert_stress + dw * l.soil_type.unit_wt -
          if eff then porePressureAux wt (l.depth + dw) else 0)) ∧
    (l.thickness < dw → ∃ msg, l.vert_stress_at wt dw eff = .error msg) := by
  constructor
  · intro h
    cases eff <;> simp [Layer.vert_stress_at, Layer.stressAt, h]
  · intro h
    exact ⟨"AssertionError", by simp [Layer.vert_stress_at, not_le.mpr h]⟩

/-- A concrete layer used by several witnesses: linear soil of unit weight
18 kN/m³ with constant damping 0.02, thickness 10 m, shear velocity
200 m/s, placed at the top of the column. -/
def exLayer : Layer :=
  Layer.init ⟨18, none, .const (2/100)⟩ 10 200

/-- Witness for C8: an offset of 4 m inside `exLayer` succeeds with
`0 + 4 * 18 = 72` kN/m², an offset of 11 m fails. -/
theorem vert_stress_at_spec_witness :
    exLayer.vert_stress_at 0 4 false = .ok 72 ∧
    ∃ msg, exLayer.vert_stress_at 0 11 false = .error msg := by
  constructor
  · have h := (vert_stress_at_spec exLayer 0 4 false).1 (by norm_num [exLayer, Layer.init, Layer.reset])
    rw [h]; norm_num [exLayer, Layer.init, Layer.reset]
  · exact (vert_stress_at_spec exLayer 0 11 false).2 (by norm_num [exLayer, Layer.init, Layer.reset])

/-- C9: a freshly constructed layer, and any layer after `reset()`, holds
`previous = None` in both iterative values, so both relative errors and
`max_error` are zero — no spurious convergence error before the first
strain assignment. -/
theorem fresh_layer_max_error_zero :
    (∀ (st : SoilType) (t v : ℚ),
      (Layer.init st t v).shear_mod.previous = none ∧
      (Layer.init st t v).damping.previous = none ∧
      (Layer.init st t v).max_error = .fin 0) ∧
    (∀ l : Layer,
      l.reset.shear_mod.previous = none ∧
      l.reset.damping.previous = none ∧
      l.reset.max_error = .fin 0) := by
  constructor
  · intro st t v
    refine ⟨rfl, rfl, ?_⟩
    simp [Layer.init, Layer.reset, Layer.max_error, IterativeValue.relative_error, RelError.maxE]
  · intro l
    refine ⟨rfl, rfl, ?_⟩
    simp [Layer.reset, Layer.max_error, IterativeValue.relative_error, RelError.maxE]

/-- C6: for a layer with a linear soil type, assigning any strain leaves
`shear_mod.value` equal to `initial_shear_mod` (the modulus-reduction
fallback is 1) and sets `damping.value` to the constant
`soil_type.damping`. -/
theorem linear_soil_strain_spec (l : Layer) (s v : ℚ)
    (hlin : l.soil_type.is_nonlinear = false)
    (hdamp : l.soil_type.damping = .const v) :
    (l.setStrain s).shear_mod.value = l.initial_shear_mod ∧
    (l.setStrain s).damping.value = v := by
  have hmr : l.soil_type.mod_reduc = none := by
    rcases h : l.soil_type.mod_reduc with _ | c
    · rfl
    · simp [SoilType.is_nonlinear, h] at hlin
  constructor
  · simp [Layer.setStrain, IterativeValue.setValue, SoilType.modReducAt, hmr]
  · simp [Layer.setStrain, IterativeValue.setValue, SoilType.dampingAt, hdamp]

/-- Witness for C6: `exLayer` (linear, constant damping 0.02) keeps its
initial shear modulus and gets damping 0.02 at strain 0.001. -/
theorem linear_soil_strain_spec_witness :
    (exLayer.setStrain (1/1000)).shear_mod.value = exLayer.initial_shear_mod ∧
    (exLayer.setStrain (1/1000)).damping.value = 2/100 :=
  linear_soil_strain_spec exLayer (1/1000) (2/100) rfl rfl

/-- C10: for a nonlinear layer whose initial shear modulus and whose
modulus-reduction and damping evaluations at a strain are strictly
positive, assigning that same strain twice in succession leaves both
iterative values with `previous = value`, so `max_error` is exactly zero. -/
theorem repeated_strain_zero_error (l : Layer) (s : ℚ)
    (_hnl : l.soil_type.is_nonlinear = true)
    (hG : 0 < l.initial_shear_mod)
    (hm : 0 < l.soil_type.modReducAt s)
    (hd : 0 < l.soil_type.dampingAt s) :
    ((l.setStrain s).setStrain s).max_error = .fin 0 := by
  have hGm : l.initial_shear_mod * l.soil_type.modReducAt s ≠ 0 :=
    ne_of_gt (mul_pos hG hm)
  have hd' : l.soil_type.dampingAt s ≠ 0 := ne_of_gt hd
  have e1 : ((l.setStrain s).setStrain s).shear_mod =
      ⟨l.initial_shear_mod * l.soil_type.modReducAt s,
       some (l.initial_shear_mod * l.soil_type.modReducAt s)⟩ := rfl
  have e2 : ((l.setStrain s).setStrain s).damping =
      ⟨l.soil_type.dampingAt s, some (l.soil_type.dampingAt s)⟩ := rfl
  simp [Layer.max_error, e1, e2, IterativeValue.relative_error, RelError.maxE, hGm, hd']

/-- A concrete nonlinear curve whose evaluation is identically 1, used in
the witness of C10. -/
def witnessCurve : NLCurve := ⟨[1], fun _ => 1⟩

/-- Witness for C10: a nonlinear layer with positive modulus and curve
values reports `max_error = 0` after the same strain is assigned twice. -/
theorem repeated_strain_zero_error_witness :
    (((Layer.init ⟨18, some witnessCurve, .const (3/100)⟩ 10 200).setStrain
        (1/100)).setStrain (1/100)).max_error = .fin 0 := by
  refine repeated_strain_zero_error _ (1/100) rfl ?_ ?_ ?_
  · norm_num [Layer.init, Layer.reset, Layer.initial_shear_mod, SoilType.density, GRAVITY]
  · norm_num [Layer.init, Layer.reset, SoilType.modReducAt, witnessCurve]
  · norm_num [Layer.init, Layer.reset, SoilType.dampingAt]

/-- The running maximum is a chain above its accumulator. -/
theorem chain_maxAccumFrom {α : Type} [LinearOrder α] (m : α) (l : List α) :
    List.Chain (· ≤ ·) m (maxAccumFrom m l) := by
  induction l generalizing m with
  | nil => exact .nil
  | cons a rest ih => exact .cons (le_max_left m a) (ih (max m a))

/-- `np.maximum.accumulate` always produces a non-decreasing list. -/
theorem sorted_maximumAccumulate {α : Type} [LinearOrder α] (l : List α) :
    (maximumAccumulate l).Sorted (· ≤ ·) := by
  cases l with
  | nil => simp [maximumAccumulate]
  | cons a rest =>
    exact List.chain_iff_pairwise.mp (chain_maxAccumFrom a rest)

/-- The whole Masing damping pipeline stores a non-decreasing list: the
percent-to-decimal conversion preserves the order established by the
running maximum. -/
theorem sorted_masing_damping_curve (strain_ref curvature damping_min num_cycles : ℝ)
    (strains : List ℝ) :
    (masing_damping_curve strain_ref curvature damping_min num_cycles strains).Sorted
      (· ≤ ·) := by
  unfold masing_damping_curve
  exact (sorted_maximumAccumulate _).map _ (fun a b h => by linarith)

/-- C3: the stored Darendeli and Menq damping curves are non-decreasing
over the generated strain grid — every entry is bounded by every later
entry — because the pipeline takes the running maximum of the computed
damping before storing it. -/
theorem darendeli_menq_damping_monotone :
    (∀ (p : DarendeliParams) (strains : List ℝ),
      (darendeliDampingCurve p strains).Sorted (· ≤ ·)) ∧
    (∀ (p : MenqParams) (strains : List ℝ),
      (menqDampingCurve p strains).Sorted (· ≤ ·)) :=
  ⟨fun _ strains => sorted_masing_damping_curve _ _ _ _ strains,
   fun _ strains => sorted_masing_damping_curve _ _ _ _ strains⟩

/-- `getLastD` commutes with `map` when the default is also mapped. -/
theorem getLastD_map {α β : Type} (f : α → β) (l : List α) (d : α) :
    (l.map f).getLastD (f d) = f (l.getLastD d) := by
  induction l generalizing d with
  | nil => simp
  | cons a t ih => simp only [List.map_cons, List.getLastD_cons, ih]

/-- In a non-decreasing list the head is bounded by the last element. -/
theorem le_getLastD_of_sorted :
    ∀ (t : List ℝ) (a : ℝ), (a :: t).Sorted (· ≤ ·) → a ≤ t.getLastD a
  | [], a, _ => le_refl a
  | b :: t', a, h => by
    have hab : a ≤ b := (List.sorted_cons.mp h).1 b (by simp)
    have ht : (b :: t').Sorted (· ≤ ·) := (List.sorted_cons.mp h).2
    have hb := le_getLastD_of_sorted t' b ht
    rw [List.getLastD_cons]
    exact le_trans hab hb

/-- C4: for a `NonlinearProperty` with equal-length, non-empty, positive and
non-decreasing strains, evaluation below the smallest stored strain returns
exactly the first stored value, and above the largest stored strain exactly
the last stored value — flat extrapolation, for any in-range interpolant
`interior` (so for both the linear and the cubic regime). -/
theorem nlp_flat_extrapolation (strains values : List ℝ) (interior : ℝ → ℝ) (s : ℝ)
    (hne : strains ≠ []) (_hlen : strains.length = values.length)
    (hpos : ∀ x ∈ strains, 0 < x) (hsorted : strains.Sorted (· ≤ ·)) (hs : 0 < s) :
    (s < strains.headD 0 → nlpCall strains values interior s = values.headD 0) ∧
    (strains.getLastD 0 < s → nlpCall strains values interior s = values.getLastD 0) := by
  obtain ⟨a, t, rfl⟩ : ∃ a t, strains = a :: t := by
    cases strains with
    | nil => exact absurd rfl hne
    | cons a t => exact ⟨a, t, rfl⟩
  have ha : 0 < a := hpos a (by simp)
  have hhead : ((a :: t).map Real.log).headD 0 = Real.log a := by simp
  have hlastmap : ((a :: t).map Real.log).getLastD 0 = Real.log ((a :: t).getLastD 0) := by
    rw [show (0 : ℝ) = Real.log 1 by simp, getLastD_map Real.log (a :: t) 1]
    rw [List.getLastD_cons, List.getLastD_cons]
  have hlast_le : a ≤ (a :: t).getLastD 0 := by
    rw [List.getLastD_cons]
    exact le_getLastD_of_sorted t a hsorted
  constructor
  · intro hlow
    rw [List.headD_cons] at hlow
    have : Real.log s < Real.log a := Real.log_lt_log hs hlow
    unfold nlpCall interp1dEval
    rw [hhead, if_pos this]
  · intro hhigh
    have hLpos : 0 < (a :: t).getLastD 0 := lt_of_lt_of_le ha hlast_le
    have haltS : Real.log a < Real.log s :=
      Real.log_lt_log ha (lt_of_le_of_lt hlast_le hhigh)
    have hLltS : Real.log ((a :: t).getLastD 0) < Real.log s :=
      Real.log_lt_log hLpos hhigh
    unfold nlpCall interp1dEval
    rw [hhead, if_neg (not_lt.mpr (le_of_lt haltS)), hlastmap, if_pos hLltS]

/-- Witness for C4: the curve with strains `[1, 2]` and values `[5, 7]`
returns 5 below the range and 7 above it. -/
theorem nlp_flat_extrapolation_witness :
    nlpCall [1, 2] [5, 7] (fun _ => 0) (1/2) = 5 ∧
    nlpCall [1, 2] [5, 7] (fun _ => 0) 3 = 7 := by
  have hne : ([1, 2] : List ℝ) ≠ [] := by simp
  have hlen : ([1, 2] : List ℝ).length = ([5, 7] : List ℝ).length := rfl
  have hpos : ∀ x ∈ ([1, 2] : List ℝ), (0 : ℝ) < x := by norm_num
  have hsorted : ([1, 2] : List ℝ).Sorted (· ≤ ·) := by
    norm_num [List.sorted_cons]
  have elast : ([1, 2] : List ℝ).getLastD 0 = 2 := rfl
  constructor
  · have h := (nlp_flat_extrapolation [1, 2] [5, 7] (fun _ => 0) (1/2) hne hlen
      hpos hsorted (by norm_num)).1 (by norm_num)
    rw [h]
    rfl
  · have h := (nlp_flat_extrapolation [1, 2] [5, 7] (fun _ => 0) 3 hne hlen
      hpos hsorted (by norm_num)).2 (by rw [elast]; norm_num)
    rw [h]
    rfl

/-- The scan returns the first containing layer: if every layer before
index `i` fails the containment test and layer `i` passes it, the result is
layer `i` with offset `d - depth`. -/
theorem locateAux_first (d : ℚ) :
    ∀ (L : List Layer) (i : ℕ), i < L.length →
      (∀ j, j < i → ¬ containsDepth (L.getD j dummyLayer) d) →
      containsDepth (L.getD i dummyLayer) d →
      locateAux d L = some (i, L.getD i dummyLayer, d - (L.getD i dummyLayer).depth)
  | [], i, hi, _, _ => absurd hi (by simp)
  | l :: rest, 0, _, _, hc => by
    simp only [List.getD_cons_zero] at hc ⊢
    simp [locateAux, if_pos hc]
  | l :: rest, i + 1, hi, hfirst, hc => by
    have hnotl : ¬ containsDepth l d := by
      have := hfirst 0 (Nat.succ_pos i)
      simpa using this
    have hrest := locateAux_first d rest i (by simpa using hi)
      (fun j hj => by simpa using hfirst (j + 1) (Nat.succ_lt_succ hj))
      (by simpa using hc)
    simp only [List.getD_cons_succ] at hc ⊢
    simp [locateAux, if_neg hnotl, hrest]

/-- If no layer contains the depth, the scan returns nothing. -/
theorem locateAux_none (d : ℚ) :
    ∀ L : List Layer,
      (∀ j, j < L.length → ¬ containsDepth (L.getD j dummyLayer) d) →
      locateAux d L = none
  | [], _ => rfl
  | l :: rest, h => by
    have hnotl : ¬ containsDepth l d := by simpa using h 0 (Nat.succ_pos _)
    have hrest := locateAux_none d rest
      (fun j hj => by simpa using h (j + 1) (Nat.succ_lt_succ hj))
    simp [locateAux, if_neg hnotl, hrest]

/-- A linear soil type shared by the concrete example profiles:
`unit_wt = 18 kN/m³`, constant damping 0.05. -/
def linearSoil : SoilType := ⟨18, none, .const (5/100)⟩

/-- The example column of the spec: finite layers of 10 m and 15 m over a
halfspace, water table at the surface. -/
def exampleProfile : Profile :=
  Profile.init
    [Layer.init linearSoil 10 200, Layer.init linearSoil 15 400, Layer.init linearSoil 0 760]
    0

/-- C5: `Profile.location(wave_field, depth=d)` returns the first
non-halfspace layer whose `[depth, depth_base)` range contains `d` with
`depth_within = d - layer.depth`; when no finite layer contains `d` it
returns the final halfspace layer at zero offset; and on the concrete
two-layers-over-halfspace column, depth 12 yields the second layer with
`depth_within = 2`. -/
theorem location_spec :
    (∀ (p : Profile) (wf : WaveField) (d : ℚ) (i : ℕ),
      i < p.layers.dropLast.length →
      (∀ j, j < i → ¬ containsDepth (p.layers.dropLast.getD j dummyLayer) d) →
      containsDepth (p.layers.dropLast.getD i dummyLayer) d →
      p.location wf d =
        ⟨i, p.layers.dropLast.getD i dummyLayer, wf,
         d - (p.layers.dropLast.getD i dummyLayer).depth⟩) ∧
    (∀ (p : Profile) (wf : WaveField) (d : ℚ),
      (∀ j, j < p.layers.dropLast.length →
        ¬ containsDepth (p.layers.dropLast.getD j dummyLayer) d) →
      p.location wf d = ⟨p.layers.length - 1, p.layers.getLastD dummyLayer, wf, 0⟩) ∧
    (exampleProfile.location .outcrop 12).index = 1 ∧
    (exampleProfile.location .outcrop 12).depth_within = 2 := by
  refine ⟨fun p wf d i hi hfirst hc => ?_, fun p wf d h => ?_, ?_, ?_⟩
  · unfold Profile.location
    rw [locateAux_first d p.layers.dropLast i hi hfirst hc]
  · unfold Profile.location
    rw [locateAux_none d p.layers.dropLast h]
  · norm_num [exampleProfile, Profile.init, update_layers, updateFrom, Layer.init,
      Layer.reset, linearSoil, Profile.location, locateAux, containsDepth, Layer.depth_base]
  · norm_num [exampleProfile, Profile.init, update_layers, updateFrom, Layer.init,
      Layer.reset, linearSoil, Profile.location, locateAux, containsDepth, Layer.depth_base]

/-- Witness for C5: the general clauses applied to the concrete example
column (layer 1 contains depth 12; depth 100 lies beyond all finite
layers and falls back to the halfspace, index 2). -/
theorem location_spec_witness :
    (exampleProfile.location .outcrop 12).index = 1 ∧
    (exampleProfile.location .outcrop 12).layer.depth = 10 ∧
    (exampleProfile.location .outcrop 100).index = 2 ∧
    (exampleProfile.location .outcrop 100).depth_within = 0 := by
  have h1 := location_spec.1 exampleProfile .outcrop 12 1
    (by norm_num [exampleProfile, Profile.init, update_layers, updateFrom, Layer.init,
      Layer.reset, linearSoil])
    (by intro j hj
        interval_cases j
        norm_num [exampleProfile, Profile.init, update_layers, updateFrom, Layer.init,
          Layer.reset, linearSoil, containsDepth, Layer.depth_base])
    (by norm_num [exampleProfile, Profile.init, update_layers, updateFrom, Layer.init,
      Layer.reset, linearSoil, containsDepth, Layer.depth_base])
  have h2 := location_spec.2.1 exampleProfile .outcrop 100
    (by intro j hj
        have hj' : j < 2 := by
          simpa [exampleProfile, Profile.init, update_layers, updateFrom] using hj
        interval_cases j <;>
          norm_num [exampleProfile, Profile.init, update_layers, updateFrom, Layer.init,
            Layer.reset, linearSoil, containsDepth, Layer.depth_base])
  rw [h1, h2]
  refine ⟨rfl, ?_, ?_, rfl⟩
  · norm_num [exampleProfile, Profile.init, update_layers, updateFrom, Layer.init,
      Layer.reset, linearSoil]
  · norm_num [exampleProfile, Profile.init, update_layers, updateFrom]

/-- `updateFrom` always establishes the chaining invariant on its output. -/
theorem chainOk_updateFrom (d v : ℚ) (L : List Layer) : chainOk (updateFrom d v L) := by
  induction L generalizing d v with
  | nil => exact trivial
  | cons a rest ih =>
    cases rest with
    | nil => exact trivial
    | cons b rest' =>
      refine ⟨⟨rfl, rfl⟩, ?_⟩
      exact ih (d + a.thickness) (v + a.thickness * a.soil_type.unit_wt)

/-- A full `update_layers` pass establishes the chaining invariant. -/
theorem chainOk_update_layers (L : List Layer) : chainOk (update_layers L 0) := by
  simpa [update_layers] using chainOk_updateFrom 0 0 L

/-- C1: the claim fails on the source as written.  `Profile.__init__`
establishes the chaining invariant, but the `Layer.thickness` setter calls
`self._profile.update_layers(self, self._profile.index(self) + 1)`, passing
two positional arguments to `Profile.update_layers(self, start_layer=0)`:
the call raises `TypeError` after `_thickness` has already been mutated, so
the cascading recompute never runs and the chaining invariant is left
broken.  Had `update_layers` been invoked with the intended start index,
the invariant would have been restored (last conjunct). -/
theorem thickness_setter_breaks_chain :
    chainOk exampleProfile.layers ∧
    (setThickness exampleProfile.layers 0 5).2.isSome = true ∧
    ¬ chainOk (setThickness exampleProfile.layers 0 5).1 ∧
    chainOk (update_layers (setThickness exampleProfile.layers 0 5).1 1) := by
  refine ⟨chainOk_update_layers _, ?_, ?_, ?_⟩
  · norm_num [exampleProfile, Profile.init, update_layers, updateFrom, Layer.init,
      Layer.reset, linearSoil, setThickness]
  · norm_num [exampleProfile, Profile.init, update_layers, updateFrom, Layer.init,
      Layer.reset, linearSoil, setThickness, chainOk, Layer.depth_base, Layer.stressAt]
  · norm_num [exampleProfile, Profile.init, update_layers, updateFrom, Layer.init,
      Layer.reset, linearSoil, setThickness, chainOk, Layer.depth_base, Layer.stressAt]

end Pysra
